import Mathlib

/-!
Verification of the `hcloud_server_info` Ansible module
(`plugins/modules/hcloud_server_info.py`): a shallow embedding of the
module's field mapping (`_prepare_result`), its lookup dispatch
(`get_servers`) and its entry point (`main`), together with proofs of the
specified properties.
-/

namespace HcloudServerInfo

/-- A JSON-like value as it appears in an Ansible result mapping: the Python
side builds plain dicts, lists, strings, ints, bools and `None`. -/
inductive Value where
  | null
  | str (s : String)
  | int (n : Int)
  | bool (b : Bool)
  | list (vs : List Value)
  | dict (entries : List (String × Value))

/-- A record of the output list: one Python dict, keys in insertion order. -/
abbrev Record := List (String × Value)

/-- `server.datacenter.location` of the hcloud SDK, as the module reads it. -/
structure Location where
  name : String
  deriving Repr, DecidableEq

/-- `server.datacenter` of the hcloud SDK, as the module reads it. -/
structure Datacenter where
  name : String
  location : Location
  deriving Repr, DecidableEq

/-- `server.server_type` of the hcloud SDK, as the module reads it. -/
structure ServerType where
  name : String
  deriving Repr, DecidableEq

/-- `server.image` of the hcloud SDK, as the module reads it. -/
structure Image where
  name : String
  deriving Repr, DecidableEq

/-- `server.placement_group` of the hcloud SDK, as the module reads it. -/
structure PlacementGroup where
  name : String
  deriving Repr, DecidableEq

/-- `server.public_net.ipv4` of the hcloud SDK, as the module reads it. -/
structure IPv4Address where
  ip : String
  deriving Repr, DecidableEq

/-- `server.public_net.ipv6` of the hcloud SDK, as the module reads it. -/
structure IPv6Network where
  ip : String
  deriving Repr, DecidableEq

/-- `server.public_net` of the hcloud SDK: the ipv4 / ipv6 sub-objects may be
absent (`None`). -/
structure PublicNet where
  ipv4 : Option IPv4Address
  ipv6 : Option IPv6Network
  deriving Repr, DecidableEq

/-- `net.network` of an entry of `server.private_net`. -/
structure Network where
  name : String
  deriving Repr, DecidableEq

/-- An entry of `server.private_net`: the attached network and the server's ip
in it. -/
structure PrivateNet where
  network : Network
  ip : String
  deriving Repr, DecidableEq

/-- `server.protection` of the hcloud SDK: the dict with the `delete` and
`rebuild` flags. -/
structure Protection where
  delete : Bool
  rebuild : Bool
  deriving Repr, DecidableEq

/-- A server object of the hcloud SDK, restricted to the attributes
`_prepare_result` reads. `image`, `placement_group` and `backup_window` may be
absent (`None`); `labels` is the user-defined key/value dict. -/
structure Server where
  id : Int
  name : String
  status : String
  server_type : ServerType
  public_net : PublicNet
  private_net : List PrivateNet
  image : Option Image
  datacenter : Datacenter
  placement_group : Option PlacementGroup
  rescue_enabled : Bool
  backup_window : Option String
  labels : List (String × String)
  protection : Protection
  deriving Repr, DecidableEq

/-- The dict `_prepare_result` appends for one server, entry by entry in the
source's order. `to_native` renders an int as its decimal string and is the
identity on strings; the guards for the optional sub-objects
(`image`, `placement_group`, `public_net.ipv4`, `public_net.ipv6`,
`backup_window`) produce `None` when the sub-object is absent. -/
def prepare_record (server : Server) : Record :=
  let image := match server.image with
    | none => Value.null
    | some img => Value.str img.name
  let placement_group := match server.placement_group with
    | none => Value.null
    | some pg => Value.str pg.name
  let ipv4_address := match server.public_net.ipv4 with
    | none => Value.null
    | some a => Value.str a.ip
  let ipv6 := match server.public_net.ipv6 with
    | none => Value.null
    | some a => Value.str a.ip
  let backup_window := match server.backup_window with
    | none => Value.null
    | some w => Value.str w
  [("id", Value.str (toString server.id)),
   ("name", Value.str server.name),
   ("ipv4_address", ipv4_address),
   ("ipv6", ipv6),
   ("private_networks",
     Value.list (server.private_net.map (fun net => Value.str net.network.name))),
   ("private_networks_info",
     Value.list (server.private_net.map (fun net =>
       Value.dict [("name", Value.str net.network.name), ("ip", Value.str net.ip)]))),
   ("image", image),
   ("server_type", Value.str server.server_type.name),
   ("datacenter", Value.str server.datacenter.name),
   ("location", Value.str server.datacenter.location.name),
   ("placement_group", placement_group),
   ("rescue_enabled", Value.bool server.rescue_enabled),
   ("backup_window", backup_window),
   ("labels", Value.dict (server.labels.map (fun kv => (kv.1, Value.str kv.2)))),
   ("status", Value.str server.status),
   ("delete_protection", Value.bool server.protection.delete),
   ("rebuild_protection", Value.bool server.protection.rebuild)]

/-- `AnsibleHcloudServerInfo._prepare_result`: walk `self.hcloud_server_info`,
skip `None` entries, append the prepared dict for each server. -/
def prepare_result (servers : List (Option Server)) : List Record :=
  match servers with
  | [] => []
  | none :: rest => prepare_result rest
  | some server :: rest => prepare_record server :: prepare_result rest

/-- The hcloud client's server operations as `get_servers` calls them. Each
call either raises — modelled as `Except.error` carrying the exception's
message — or returns its result; `get_all` takes the optional
`label_selector` keyword argument. -/
structure Client where
  get_by_id : Int → Except String (Option Server)
  get_by_name : String → Except String (Option Server)
  get_all : Option String → Except String (List Server)

/-- The module's three selection parameters, each optional (`None` when the
playbook does not pass it). -/
structure Params where
  id : Option Int
  name : Option String
  label_selector : Option String
  deriving Repr, DecidableEq

/-- `AnsibleHcloudServerInfo.get_servers`: dispatch on the parameters in the
source's order (`id`, then `name`, then `label_selector`, else list all) and
store the servers; a by-id or by-name result is wrapped in a one-element
list. An exception from the client propagates as the error. -/
def get_servers (client : Client) (params : Params) :
    Except String (List (Option Server)) :=
  match params.id with
  | some i => (client.get_by_id i).map (fun s => [s])
  | none =>
    match params.name with
    | some n => (client.get_by_name n).map (fun s => [s])
    | none =>
      match params.label_selector with
      | some sel => (client.get_all (some sel)).map (fun ss => ss.map some)
      | none => (client.get_all none).map (fun ss => ss.map some)

/-- How one module invocation ends: `fail_json` with a message, or success
with the prepared record list. -/
inductive Outcome where
  | failed (msg : String)
  | ok (records : List Record)

/-- One invocation of the module body: `get_servers` catches any exception of
the underlying call and calls `fail_json(msg=e.message)`, which ends the
module; otherwise the stored servers are prepared into the result list. -/
def run_module (client : Client) (params : Params) : Outcome :=
  match get_servers client params with
  | .error msg => .failed msg
  | .ok servers => .ok (prepare_result servers)

/-- Modelled from the spec: `Hcloud.get_result`, the collection's shared base
class method, is not among these sources; per the spec the module's output is
"a list of mappings", so the result carries exactly the prepared records under
the module's key. -/
def get_result (servers : List (Option Server)) : List Record :=
  prepare_result servers

/-- What `module.exit_json` / `module.fail_json` receives at the end of
`main`: a failure message, or the keyword payload. -/
inductive Payload where
  | records (rs : List Record)
  | facts (entries : List (String × List Record))

/-- The module's exit: `fail_json(msg=...)` or `exit_json(**payload)`. -/
inductive ModuleExit where
  | failJson (msg : String)
  | exitJson (payload : List (String × Payload))

/-- What one run of `main` produces: whether a deprecation notice was emitted,
and the exit call. -/
structure MainResult where
  deprecation : Bool
  exit : ModuleExit

/-- `main`: under the legacy name `hcloud_server_facts` a deprecation notice
is emitted and the records are nested as
`exit_json(ansible_facts={hcloud_server_facts: records})`; under the current
name the records are passed as `exit_json(hcloud_server_info=records)`. A
failure in `get_servers` ends the run through `fail_json` first. -/
def main_run (client : Client) (params : Params) (module_name : String) :
    MainResult :=
  let is_old_facts := module_name == "hcloud_server_facts"
  match get_servers client params with
  | .error msg => { deprecation := is_old_facts, exit := .failJson msg }
  | .ok servers =>
    let result_records := get_result servers
    if is_old_facts then
      { deprecation := true,
        exit := .exitJson
          [("ansible_facts", .facts [("hcloud_server_facts", result_records)])] }
    else
      { deprecation := false,
        exit := .exitJson [("hcloud_server_info", .records result_records)] }

/-- The 17 keys of an output record, in the order the source dict lists them. -/
def result_keys : List String :=
  ["id", "name", "ipv4_address", "ipv6", "private_networks",
   "private_networks_info", "image", "server_type", "datacenter", "location",
   "placement_group", "rescue_enabled", "backup_window", "labels", "status",
   "delete_protection", "rebuild_protection"]

/-- The "name" entry of a dict value, for relating `private_networks_info`
entries to `private_networks` entries. -/
def entry_name : Value → Option Value
  | .dict entries => entries.lookup "name"
  | _ => none


/-- The 17 output keys in the order the claim lists them. -/
def claimed_keys : List String :=
  ["id", "name", "status", "server_type", "ipv4_address", "ipv6",
   "private_networks", "private_networks_info", "image", "datacenter",
   "location", "placement_group", "rescue_enabled", "backup_window", "labels",
   "delete_protection", "rebuild_protection"]

/-- The keys of a prepared record are exactly `result_keys`, whatever the
server. -/
lemma prepare_record_keys (server : Server) :
    (prepare_record server).map Prod.fst = result_keys := rfl

/-- `_prepare_result` keeps, in order, exactly the non-`None` entries, each
mapped through the record preparation. -/
lemma prepare_result_eq_filterMap (servers : List (Option Server)) :
    prepare_result servers = (servers.filterMap id).map prepare_record := by
  induction servers with
  | nil => rfl
  | cons head tail ih => cases head <;> simp [prepare_result, ih]

/-- C1: for every assignment of the three selection parameters exactly one
lookup strategy is invoked, by precedence id > name > label_selector > none:
with `id` set the result is exactly the by-id lookup's; with `id` unset and
`name` set, the by-name lookup's; with both unset and `label_selector` set,
the filtered list-all's; with all three unset, the unfiltered list-all's. -/
theorem C1_lookup_precedence (client : Client) (p : Params) :
    (∀ i, p.id = some i →
      get_servers client p = (client.get_by_id i).map (fun s => [s])) ∧
    (p.id = none → ∀ n, p.name = some n →
      get_servers client p = (client.get_by_name n).map (fun s => [s])) ∧
    (p.id = none → p.name = none → ∀ sel, p.label_selector = some sel →
      get_servers client p = (client.get_all (some sel)).map (fun ss => ss.map some)) ∧
    (p.id = none → p.name = none → p.label_selector = none →
      get_servers client p = (client.get_all none).map (fun ss => ss.map some)) := by
  refine ⟨?_, ?_, ?_, ?_⟩
  · intro i hi
    simp [get_servers, hi]
  · intro h0 n hn
    simp [get_servers, h0, hn]
  · intro h0 h1 sel hs
    simp [get_servers, h0, h1, hs]
  · intro h0 h1 h2
    simp [get_servers, h0, h1, h2]

/-- C3: whichever lookup strategy is selected, an exception of the underlying
API call makes the module fail with exactly the exception's message; no
record list is produced. -/
theorem C3_exception_surfaced (client : Client) (p : Params) (msg : String) :
    (∀ i, p.id = some i → client.get_by_id i = .error msg →
      run_module client p = .failed msg) ∧
    (p.id = none → ∀ n, p.name = some n → client.get_by_name n = .error msg →
      run_module client p = .failed msg) ∧
    (p.id = none → p.name = none → ∀ sel, p.label_selector = some sel →
      client.get_all (some sel) = .error msg → run_module client p = .failed msg) ∧
    (p.id = none → p.name = none → p.label_selector = none →
      client.get_all none = .error msg → run_module client p = .failed msg) := by
  refine ⟨?_, ?_, ?_, ?_⟩
  · intro i hi he
    simp [run_module, get_servers, hi, he, Except.map]
  · intro h0 n hn he
    simp [run_module, get_servers, h0, hn, he, Except.map]
  · intro h0 h1 sel hs he
    simp [run_module, get_servers, h0, h1, hs, he, Except.map]
  · intro h0 h1 h2 he
    simp [run_module, get_servers, h0, h1, h2, he, Except.map]

/-- C8: a `None` entry is skipped during result preparation — the output is
the record list of the non-`None` servers only — so a by-id or by-name lookup
that yields no server gives an empty output list rather than one holding
null. -/
theorem C8_null_entries_skipped (client : Client) (p : Params) :
    (∀ servers, prepare_result servers = (servers.filterMap id).map prepare_record) ∧
    (∀ i, p.id = some i → client.get_by_id i = .ok none →
      run_module client p = .ok []) ∧
    (p.id = none → ∀ n, p.name = some n → client.get_by_name n = .ok none →
      run_module client p = .ok []) := by
  refine ⟨prepare_result_eq_filterMap, ?_, ?_⟩
  · intro i hi he
    simp [run_module, get_servers, hi, he, Except.map, prepare_result]
  · intro h0 n hn he
    simp [run_module, get_servers, h0, hn, he, Except.map, prepare_result]

/-- C9: in every prepared record, `private_networks` and
`private_networks_info` come from the same private-network list: both are
lists of equal length, and the i-th element of `private_networks` is exactly
the "name" field of the i-th `private_networks_info` entry. -/
theorem C9_private_networks_aligned (server : Server) :
    ∃ names infos,
      (prepare_record server).lookup "private_networks" = some (Value.list names) ∧
      (prepare_record server).lookup "private_networks_info" = some (Value.list infos) ∧
      names.length = infos.length ∧
      ∀ i : Nat, (infos[i]?).bind entry_name = names[i]? := by
  refine ⟨_, _, rfl, rfl, by simp, ?_⟩
  intro i
  rw [List.getElem?_map, List.getElem?_map]
  cases server.private_net[i]? <;> simp [entry_name, List.lookup]

/-- C10: the record's `id` is the string rendering of the server's numeric id
(not the integer itself), and `name` and `status` are likewise stored as
strings. -/
theorem C10_to_native_strings (server : Server) :
    (prepare_record server).lookup "id" = some (Value.str (toString server.id)) ∧
    (∀ n : Int, (prepare_record server).lookup "id" ≠ some (Value.int n)) ∧
    (prepare_record server).lookup "name" = some (Value.str server.name) ∧
    (prepare_record server).lookup "status" = some (Value.str server.status) := by
  refine ⟨rfl, ?_, rfl, rfl⟩
  intro n h
  rw [show (prepare_record server).lookup "id"
        = some (Value.str (toString server.id)) from rfl] at h
  simp at h


/-- C2: the field mapping is total — every record of the output carries
exactly the 17 listed keys, and each nested-object field (`image`,
`placement_group`, `ipv4_address`, `ipv6`, `backup_window`) is null when the
corresponding nested object is absent. -/
theorem C2_field_mapping_total (server : Server) (servers : List (Option Server)) :
    (∀ r ∈ prepare_result servers, r.map Prod.fst = result_keys) ∧
    (∀ k ∈ claimed_keys, ((prepare_record server).lookup k).isSome = true) ∧
    (server.image = none →
      (prepare_record server).lookup "image" = some Value.null) ∧
    (server.placement_group = none →
      (prepare_record server).lookup "placement_group" = some Value.null) ∧
    (server.public_net.ipv4 = none →
      (prepare_record server).lookup "ipv4_address" = some Value.null) ∧
    (server.public_net.ipv6 = none →
      (prepare_record server).lookup "ipv6" = some Value.null) ∧
    (server.backup_window = none →
      (prepare_record server).lookup "backup_window" = some Value.null) := by
  refine ⟨?_, ?_, ?_, ?_, ?_, ?_, ?_⟩
  · intro r hr
    rw [prepare_result_eq_filterMap] at hr
    obtain ⟨s, _, rfl⟩ := List.mem_map.1 hr
    exact prepare_record_keys s
  · intro k hk
    simp only [claimed_keys] at hk
    fin_cases hk <;> rfl
  · intro h
    rw [show (prepare_record server).lookup "image"
          = some (match server.image with
                  | none => Value.null
                  | some img => Value.str img.name) from rfl, h]
  · intro h
    rw [show (prepare_record server).lookup "placement_group"
          = some (match server.placement_group with
                  | none => Value.null
                  | some pg => Value.str pg.name) from rfl, h]
  · intro h
    rw [show (prepare_record server).lookup "ipv4_address"
          = some (match server.public_net.ipv4 with
                  | none => Value.null
                  | some a => Value.str a.ip) from rfl, h]
  · intro h
    rw [show (prepare_record server).lookup "ipv6"
          = some (match server.public_net.ipv6 with
                  | none => Value.null
                  | some a => Value.str a.ip) from rfl, h]
  · intro h
    rw [show (prepare_record server).lookup "backup_window"
          = some (match server.backup_window with
                  | none => Value.null
                  | some w => Value.str w) from rfl, h]

/-- C4: with only `id` set, and the client honouring the by-id contract (a
returned server carries the requested id), the output holds at most one
record and any record it holds has that id. -/
theorem C4_by_id_at_most_one (client : Client) (i : Int) (p : Params)
    (hp : p = { id := some i, name := none, label_selector := none })
    (hapi : ∀ s, client.get_by_id i = .ok (some s) → s.id = i)
    (records : List Record)
    (hout : run_module client p = .ok records) :
    records.length ≤ 1 ∧
      ∀ r ∈ records, r.lookup "id" = some (Value.str (toString i)) := by
  subst hp
  cases hc : client.get_by_id i with
  | error msg =>
    simp [run_module, get_servers, hc, Except.map] at hout
  | ok os =>
    cases os with
    | none =>
      simp [run_module, get_servers, hc, Except.map, prepare_result] at hout
      subst hout
      simp
    | some s =>
      have hid : s.id = i := hapi s hc
      simp [run_module, get_servers, hc, Except.map, prepare_result] at hout
      subst hout
      refine ⟨by simp, ?_⟩
      intro r hr
      rw [List.mem_singleton] at hr
      subst hr
      rw [show (prepare_record s).lookup "id"
            = some (Value.str (toString s.id)) from rfl, hid]

/-- C5: with only `name` set, and the client honouring the by-name contract
(a returned server carries the requested name), the output holds at most one
record and any record it holds has that name. -/
theorem C5_by_name_at_most_one (client : Client) (n : String) (p : Params)
    (hp : p = { id := none, name := some n, label_selector := none })
    (hapi : ∀ s, client.get_by_name n = .ok (some s) → s.name = n)
    (records : List Record)
    (hout : run_module client p = .ok records) :
    records.length ≤ 1 ∧
      ∀ r ∈ records, r.lookup "name" = some (Value.str n) := by
  subst hp
  cases hc : client.get_by_name n with
  | error msg =>
    simp [run_module, get_servers, hc, Except.map] at hout
  | ok os =>
    cases os with
    | none =>
      simp [run_module, get_servers, hc, Except.map, prepare_result] at hout
      subst hout
      simp
    | some s =>
      have hname : s.name = n := hapi s hc
      simp [run_module, get_servers, hc, Except.map, prepare_result] at hout
      subst hout
      refine ⟨by simp, ?_⟩
      intro r hr
      rw [List.mem_singleton] at hr
      subst hr
      rw [show (prepare_record s).lookup "name"
            = some (Value.str s.name) from rfl, hname]

/-- C6: with `label_selector` set and `id`/`name` unset, and the client's
filtered list-all returning exactly the servers whose labels match, the
output is exactly one record per matching server, in order, and none for a
non-matching one. -/
theorem C6_label_selector_filters (client : Client) (sel : String) (p : Params)
    (allServers : List Server) (pred : Server → Bool)
    (hp : p = { id := none, name := none, label_selector := some sel })
    (hapi : client.get_all (some sel) = .ok (allServers.filter pred)) :
    run_module client p = .ok ((allServers.filter pred).map prepare_record) := by
  subst hp
  simp [run_module, get_servers, hapi, Except.map]
  rw [prepare_result_eq_filterMap]
  simp [List.filterMap_map]

/-- C7: under the legacy name `hcloud_server_facts` a deprecation notice is
emitted (and not under the current name), and the very record list the
current name passes as `hcloud_server_info` is nested under
`ansible_facts.hcloud_server_facts` instead. -/
theorem C7_legacy_alias (client : Client) (p : Params) :
    (main_run client p "hcloud_server_facts").deprecation = true ∧
    (main_run client p "hcloud_server_info").deprecation = false ∧
    ∀ servers, get_servers client p = .ok servers →
      (main_run client p "hcloud_server_facts").exit
        = .exitJson [("ansible_facts",
            .facts [("hcloud_server_facts", get_result servers)])] ∧
      (main_run client p "hcloud_server_info").exit
        = .exitJson [("hcloud_server_info", .records (get_result servers))] := by
  refine ⟨?_, ?_, ?_⟩
  · cases h : get_servers client p <;> simp [main_run, h]
  · cases h : get_servers client p <;> simp [main_run, h]
  · intro servers h
    constructor <;> simp [main_run, h]


/-- A concrete server object for evaluating the theorems. -/
def sampleServer : Server :=
  { id := 42
    name := "my-server"
    status := "running"
    server_type := { name := "cx11" }
    public_net :=
      { ipv4 := some { ip := "116.203.104.109" }
        ipv6 := some { ip := "2a01:4f8:1c1c:c140::1" } }
    private_net := [{ network := { name := "my-network" }, ip := "10.0.0.2" }]
    image := some { name := "ubuntu-20.04" }
    datacenter := { name := "fsn1-dc14", location := { name := "fsn1" } }
    placement_group := none
    rescue_enabled := false
    backup_window := none
    labels := [("env", "prod")]
    protection := { delete := false, rebuild := false } }

/-- A second concrete server whose labels do not match the sample selector. -/
def sampleServer2 : Server :=
  { sampleServer with id := 7, name := "other-server", labels := [("env", "dev")] }

/-- The concrete server population behind the sample client. -/
def sampleServers : List Server := [sampleServer, sampleServer2]

/-- The label predicate the sample selector stands for. -/
def sampleMatch (s : Server) : Bool := s.labels.contains ("env", "prod")

/-- A concrete client: by-id and by-name lookups find `sampleServer`, the
filtered list-all returns the matching servers, the plain list-all all of
them. -/
def sampleClient : Client :=
  { get_by_id := fun _ => .ok (some sampleServer)
    get_by_name := fun _ => .ok (some sampleServer)
    get_all := fun osel =>
      match osel with
      | some _ => .ok (sampleServers.filter sampleMatch)
      | none => .ok sampleServers }

theorem C4_by_id_at_most_one_witness :
    [prepare_record sampleServer].length ≤ 1 ∧
      ∀ r ∈ [prepare_record sampleServer],
        r.lookup "id" = some (Value.str (toString (42 : Int))) :=
  C4_by_id_at_most_one sampleClient 42
    { id := some 42, name := none, label_selector := none } rfl
    (fun s h => by
      injection h with h1
      injection h1 with h2
      subst h2
      rfl)
    [prepare_record sampleServer] rfl

theorem C5_by_name_at_most_one_witness :
    [prepare_record sampleServer].length ≤ 1 ∧
      ∀ r ∈ [prepare_record sampleServer],
        r.lookup "name" = some (Value.str "my-server") :=
  C5_by_name_at_most_one sampleClient "my-server"
    { id := none, name := some "my-server", label_selector := none } rfl
    (fun s h => by
      injection h with h1
      injection h1 with h2
      subst h2
      rfl)
    [prepare_record sampleServer] rfl

theorem C6_label_selector_filters_witness :
    run_module sampleClient
        { id := none, name := none, label_selector := some "env=prod" }
      = .ok ((sampleServers.filter sampleMatch).map prepare_record) :=
  C6_label_selector_filters sampleClient "env=prod"
    { id := none, name := none, label_selector := some "env=prod" }
    sampleServers sampleMatch rfl rfl

end HcloudServerInfo
